import Mathlib

/-!
Verification of the cmdfu MDFU host implementation.

Shallow embedding of the MDFU protocol engine (src/src/mdfu/mdfu.c with its
header, the variant in src/unnamed/part_014) and of the serial framing
transport (src/src/transport/serial_transport.c).  Machine integers are
modelled as Nat with explicit reductions modulo powers of two where the C
performs wraparound; fallible C functions returning 0 / -1 become Option or
an explicit Int status; NULL data pointers become Option values.
-/

namespace Cmdfu

/-! Constants from mdfu.h (src/unnamed/part_003) and mdfu_config
    (MDFU_MAX_COMMAND_DATA_LENGTH defaults to 1024, host protocol
    version 1.2.0 per src/src/mdfu/CMakeLists.txt). -/

def GET_CLIENT_INFO : Nat := 0x01
def START_TRANSFER : Nat := 0x02
def WRITE_CHUNK : Nat := 0x03
def GET_IMAGE_STATE : Nat := 0x04
def END_TRANSFER : Nat := 0x05
def MAX_MDFU_CMD : Nat := 0x06

def SUCCESS : Nat := 0x01
def MAX_MDFU_STATUS : Nat := 0x06

def MDFU_HEADER_SYNC : Nat := 0x80
def MDFU_HEADER_RESEND : Nat := 0x40
def MDFU_HEADER_SEQUENCE_NUMBER : Nat := 0x1F

def MDFU_MAX_COMMAND_DATA_LENGTH : Nat := 1024
def MDFU_PROTOCOL_VERSION_MAJOR : Nat := 1
def MDFU_PROTOCOL_VERSION_MINOR : Nat := 2
def MDFU_PROTOCOL_VERSION_PATCH : Nat := 0

/-- Image state VALID from the mdfu_image_state_t enum in mdfu.c. -/
def VALID : Nat := 1

/-- Client info parameter types (client_info_type_t in mdfu.c). -/
def PROTOCOL_VERSION : Nat := 1
def BUFFER_INFO : Nat := 2
def COMMAND_TIMEOUT : Nat := 3
def INTER_TRANSACTION_DELAY : Nat := 4

def BUFFER_INFO_SIZE : Nat := 3
def COMMAND_TIMEOUT_SIZE : Nat := 3
def INTER_TRANSACTION_DELAY_SIZE : Nat := 4

/-- Errno values used by mdfu_send_cmd (Linux, via errno.h). -/
def eio_errno : Int := 5
def eproto_errno : Int := 71

/-- Little-endian 16-bit value from two bytes, as read by le16toh on a
    little-endian host. -/
def le16 (lo hi : Nat) : Nat := lo + hi * 256

/-- Little-endian 32-bit value from four bytes, as read by le32toh on a
    little-endian host. -/
def le32 (b0 b1 b2 b3 : Nat) : Nat := b0 + b1 * 256 + b2 * 65536 + b3 * 16777216

/-! Client info record (client_info_t in mdfu.h).  The C structure nests the
    version fields; here they are flattened.  cmd_timeouts is the
    uint16_t[MAX_MDFU_CMD] array, modelled as a list of length MAX_MDFU_CMD. -/

structure client_info_t where
  version_major : Nat
  version_minor : Nat
  version_patch : Nat
  version_internal : Nat
  version_internal_present : Bool
  buffer_count : Nat
  buffer_size : Nat
  default_timeout : Nat
  cmd_timeouts : List Nat
  inter_transaction_delay : Nat
deriving DecidableEq

/-- Zero-initialized client_info_t, modelling the zero-initialized static
    client_info in mdfu.c. -/
def client_info_init : client_info_t :=
  { version_major := 0, version_minor := 0, version_patch := 0,
    version_internal := 0, version_internal_present := false,
    buffer_count := 0, buffer_size := 0, default_timeout := 0,
    cmd_timeouts := List.replicate MAX_MDFU_CMD 0,
    inter_transaction_delay := 0 }

/-- Inner loop of the COMMAND_TIMEOUT case of mdfu_decode_client_info.
    data and i are the payload and the offset of the parameter value; t is
    the loop counter «timeouts», count the remaining iterations
    (parameter_length / 3 initially).  Command code 0 stores the default
    timeout (it must come first and it also seeds every cmd_timeouts slot);
    a code below MAX_MDFU_CMD stores an override at index equal to the code
    itself; anything else is an error. -/
def decode_timeout_entries (data : List Nat) (i : Nat) :
    Nat → Nat → client_info_t → Option client_info_t
  | _t, 0, ci => some ci
  | t, count + 1, ci =>
    let cmd := data.getD (i + t * COMMAND_TIMEOUT_SIZE) 0
    let timeout := le16 (data.getD (1 + i + t * COMMAND_TIMEOUT_SIZE) 0)
                        (data.getD (2 + i + t * COMMAND_TIMEOUT_SIZE) 0)
    if cmd = 0 then
      if t ≠ 0 then none
      else
        decode_timeout_entries data i (t + 1) count
          { ci with default_timeout := timeout,
                    cmd_timeouts := List.replicate MAX_MDFU_CMD timeout }
    else if MAX_MDFU_CMD ≤ cmd then none
    else
      decode_timeout_entries data i (t + 1) count
        { ci with cmd_timeouts := ci.cmd_timeouts.set cmd timeout }

/-- One TLV record of the client info payload: the body of the switch in
    mdfu_decode_client_info.  ptype and plen are the two header bytes, i the
    offset of the value bytes.  NOTE: the INTER_TRANSACTION_DELAY case of the
    C code logs an error when plen differs from INTER_TRANSACTION_DELAY_SIZE
    but is missing the return statement, so it falls through and stores the
    delay regardless; the model reproduces that. -/
def decode_ci_record (ptype plen : Nat) (data : List Nat) (i : Nat)
    (ci : client_info_t) : Option client_info_t :=
  if ptype = PROTOCOL_VERSION then
    if plen = 3 ∨ plen = 4 then
      some { ci with
        version_major := data.getD i 0,
        version_minor := data.getD (i + 1) 0,
        version_patch := data.getD (i + 2) 0,
        version_internal :=
          if plen = 4 then data.getD (i + 3) 0 else ci.version_internal,
        version_internal_present := decide (plen = 4) }
    else none
  else if ptype = BUFFER_INFO then
    if plen ≠ BUFFER_INFO_SIZE then none
    else
      some { ci with
        buffer_size := le16 (data.getD i 0) (data.getD (i + 1) 0),
        buffer_count := data.getD (i + 2) 0 }
  else if ptype = COMMAND_TIMEOUT then
    if plen % COMMAND_TIMEOUT_SIZE ≠ 0 then none
    else decode_timeout_entries data i 0 (plen / 3) ci
  else if ptype = INTER_TRANSACTION_DELAY then
    some { ci with
      inter_transaction_delay :=
        le32 (data.getD i 0) (data.getD (i + 1) 0)
             (data.getD (i + 2) 0) (data.getD (i + 3) 0) }
  else none

/-- Main loop of mdfu_decode_client_info.  Each iteration reads a type byte
    and a length byte at offset i, checks that the value fits in the payload
    and decodes one record.  The C loop index grows by at least 2 per
    iteration, so fuel equal to the payload length (supplied by the wrapper)
    never runs out; the fuel-0 branch mirrors the loop guard. -/
def decode_ci_loop (data : List Nat) (len : Nat) :
    Nat → Nat → client_info_t → Option client_info_t
  | 0, i, ci => if i < len then none else some ci
  | fuel + 1, i, ci =>
    if i < len then
      let ptype := data.getD i 0
      let plen := data.getD (i + 1) 0
      if len < i + 2 + plen then none
      else
        match decode_ci_record ptype plen data (i + 2) ci with
        | none => none
        | some ci2 => decode_ci_loop data len fuel (i + 2 + plen) ci2
    else some ci

/-- mdfu_decode_client_info from mdfu.c: decodes the TLV client info payload
    into the (in-out) client_info_t record; none models the -1 error return. -/
def mdfu_decode_client_info (data : List Nat) (ci : client_info_t) :
    Option client_info_t :=
  decode_ci_loop data data.length data.length 0 ci

/-- Timeout selection in mdfu_send_cmd once client info is valid: the raw
    uint16 LSB value client_info.cmd_timeouts[command - 1] that the C code
    then scales by SECONDS_PER_LSB (0.1 s). -/
def mdfu_send_cmd_timeout (ci : client_info_t) (cmd : Nat) : Nat :=
  ci.cmd_timeouts.getD (cmd - 1) 0

/-! MDFU packet codec (mdfu_encode_cmd_packet / mdfu_decode_packet). -/

/-- mdfu_encode_cmd_packet: byte 0 is the sequence number with the sync bit,
    byte 1 the command code, the rest is the payload. -/
def mdfu_encode_cmd_packet (sync : Bool) (seq : Nat) (cmd : Nat)
    (data : List Nat) : List Nat :=
  (if sync then seq ||| MDFU_HEADER_SYNC else seq) :: cmd :: data

/-- Decoded status packet (the status half of mdfu_packet_t).  data = none
    models the NULL data pointer the decoder stores for packets of at most
    2 bytes. -/
structure mdfu_status_packet_t where
  resend : Bool
  status : Nat
  sequence_number : Nat
  data : Option (List Nat)
  data_length : Nat
deriving DecidableEq

/-- Status branch of mdfu_decode_packet.  The first component is the C return
    value (0 ok, -1 for an invalid status code).  On the -1 path the C
    returns before assigning sequence_number and the data fields; the model
    still records the values it would compute, and callers must consult the
    status component, exactly as the C callers must. -/
def mdfu_decode_status_packet (packet : List Nat) (packet_size : Nat) :
    Int × mdfu_status_packet_t :=
  ((if packet.getD 1 0 = 0 ∨ MAX_MDFU_STATUS ≤ packet.getD 1 0 then -1 else 0),
   { resend := decide (packet.getD 0 0 &&& MDFU_HEADER_RESEND ≠ 0),
     status := packet.getD 1 0,
     sequence_number := packet.getD 0 0 &&& MDFU_HEADER_SEQUENCE_NUMBER,
     data := if packet_size > 2 then some (packet.drop 2) else none,
     data_length := if packet_size > 2 then packet_size - 2 else 0 })

/-- The read «*state = mdfu_status_packet.data[0]» performed by
    mdfu_get_image_state: none when the access is not backed by a decoded
    payload byte (NULL data pointer or empty payload). -/
def mdfu_get_image_state_read (sp : mdfu_status_packet_t) : Option Nat :=
  match sp.data with
  | none => none
  | some d => d[0]?

/-! The send-and-receive loop of mdfu_send_cmd.  Transport traffic is
    abstracted per attempt: either the write fails, or the read fails
    (timeout etc.), or a status response with given resend flag and status
    code comes back. -/

inductive attempt_result_t where
  | write_fail : attempt_result_t
  | read_fail : attempt_result_t
  | response (resend : Bool) (status : Nat) : attempt_result_t
deriving DecidableEq

/-- State after mdfu_send_cmd: the C «status» variable, the remaining value
    of the local retries counter, the session sequence number, and the frames
    handed to transport.write, in order. -/
structure send_cmd_state where
  status : Int
  retries : Nat
  seq : Nat
  writes : List (List Nat)
deriving DecidableEq

/-- The while(retries) loop of mdfu_send_cmd.  retries is decremented at the
    top of each iteration; a failed write or read sets status negative and
    retries; a resend response retries without touching the sequence number;
    a resend=0 response increments the sequence number modulo 32
    (increment_sequence_number) and breaks, with status 0 for SUCCESS and
    -EPROTO otherwise.  The frame, encoded once before the loop, is recorded
    for every transport.write call.  outs gives the outcome of attempt i. -/
def mdfu_send_cmd_loop (outs : Nat → attempt_result_t) (frame : List Nat) :
    Nat → Nat → Nat → Int → send_cmd_state
  | _i, 0, seq, status => { status := status, retries := 0, seq := seq, writes := [] }
  | i, retries + 1, seq, _status =>
    match outs i with
    | .write_fail =>
      let s := mdfu_send_cmd_loop outs frame (i + 1) retries seq (-1)
      { s with writes := frame :: s.writes }
    | .read_fail =>
      let s := mdfu_send_cmd_loop outs frame (i + 1) retries seq (-1)
      { s with writes := frame :: s.writes }
    | .response resend st =>
      if resend then
        let s := mdfu_send_cmd_loop outs frame (i + 1) retries seq 0
        { s with writes := frame :: s.writes }
      else if st = SUCCESS then
        { status := 0, retries := retries, seq := (seq + 1) % 32, writes := [frame] }
      else
        { status := -eproto_errno, retries := retries, seq := (seq + 1) % 32,
          writes := [frame] }

/-- mdfu_send_cmd: a sync command resets the sequence number to 0, the packet
    is encoded once, the loop runs, and afterwards «if(retries == 0)» the
    status is overwritten with -EIO.  The initial status value 0 is never
    observable: every loop iteration assigns status before any exit, and if
    the loop never runs the retries==0 fixup overwrites it. -/
def mdfu_send_cmd_model (outs : Nat → attempt_result_t) (send_retries : Nat)
    (sync : Bool) (cmd : Nat) (data : List Nat) (seq0 : Nat) : send_cmd_state :=
  let s := mdfu_send_cmd_loop outs
    (mdfu_encode_cmd_packet sync (if sync then 0 else seq0) cmd data)
    0 send_retries (if sync then 0 else seq0) 0
  if s.retries = 0 then { s with status := -eio_errno } else s

/-- Whether some attempt within the given number of retries obtains a status
    response with resend=0 (the condition under which the loop of
    mdfu_send_cmd reaches increment_sequence_number and breaks). -/
def terminal_reached (outs : Nat → attempt_result_t) : Nat → Nat → Bool
  | _i, 0 => false
  | i, retries + 1 =>
    match outs i with
    | .write_fail => terminal_reached outs (i + 1) retries
    | .read_fail => terminal_reached outs (i + 1) retries
    | .response resend _ =>
      if resend then terminal_reached outs (i + 1) retries else true

/-! mdfu_run_update (src/src/mdfu/mdfu.c). -/

/-- version_check from mdfu.c, comparing against the host protocol version
    1.2.0. -/
def version_check (major minor patch : Nat) : Int :=
  if MDFU_PROTOCOL_VERSION_MAJOR < major then -1
  else if major < MDFU_PROTOCOL_VERSION_MAJOR then 1
  else if MDFU_PROTOCOL_VERSION_MINOR < minor then -1
  else if minor < MDFU_PROTOCOL_VERSION_MINOR then 1
  else if MDFU_PROTOCOL_VERSION_PATCH < patch then -1
  else if patch < MDFU_PROTOCOL_VERSION_PATCH then 1
  else 0

/-- The do/while chunk loop of mdfu_run_update: each iteration reads up to
    buffer_size bytes from the image reader (modelled as the leading bytes of
    the remaining image) and issues one WRITE_CHUNK exchange; a zero read or
    a short read ends the loop.  Structural fuel (image length + 1 from the
    wrapper) replaces the C termination argument; the fuel-0 branch is
    unreachable from the wrapper. -/
def mdfu_write_chunks_loop (buffer_size : Nat) : Nat → List Nat → List Nat
  | 0, _ => []
  | fuel + 1, image =>
    let size := min buffer_size image.length
    if size = 0 then []
    else if size < buffer_size then [WRITE_CHUNK]
    else WRITE_CHUNK :: mdfu_write_chunks_loop buffer_size fuel (image.drop buffer_size)

def mdfu_write_chunks (buffer_size : Nat) (image : List Nat) : List Nat :=
  mdfu_write_chunks_loop buffer_size (image.length + 1) image

/-- Command trace of mdfu_run_update in src/src/mdfu/mdfu.c, as the list of
    command codes handed to mdfu_send_cmd together with the success flag.
    Exchanges themselves, the client-info decode (yielding ci) and the malloc
    are assumed to succeed, which isolates the control flow of the function:
    version check, then the optional inter-transaction-delay ioctl, then
    mdfu_start_transfer, and only after that the
    MDFU_MAX_COMMAND_DATA_LENGTH < buffer_size rejection, then the chunk
    loop, GET_IMAGE_STATE with the VALID check, and END_TRANSFER. -/
def mdfu_run_update_cmds (ci : client_info_t) (has_ioctl ioctl_ok : Bool)
    (image : List Nat) (image_state : Nat) : List Nat × Bool :=
  if version_check ci.version_major ci.version_minor ci.version_patch < 0 then
    ([GET_CLIENT_INFO], false)
  else if has_ioctl && !ioctl_ok then
    ([GET_CLIENT_INFO], false)
  else if MDFU_MAX_COMMAND_DATA_LENGTH < ci.buffer_size then
    ([GET_CLIENT_INFO, START_TRANSFER], false)
  else if image_state ≠ VALID then
    ([GET_CLIENT_INFO, START_TRANSFER] ++ mdfu_write_chunks ci.buffer_size image
      ++ [GET_IMAGE_STATE], false)
  else
    ([GET_CLIENT_INFO, START_TRANSFER] ++ mdfu_write_chunks ci.buffer_size image
      ++ [GET_IMAGE_STATE, END_TRANSFER], true)

/-! Serial transport (src/src/transport/serial_transport.c). -/

def FRAME_START_CODE : Nat := 0x56
def FRAME_END_CODE : Nat := 0x9E
def ESCAPE_SEQ_CODE : Nat := 0xCC
/-- «~FRAME_START_CODE & 0xff». -/
def FRAME_START_ESC_SEQ : Nat := 0xA9
/-- «~FRAME_END_CODE & 0xff». -/
def FRAME_END_ESC_SEQ : Nat := 0x61
/-- «~ESCAPE_SEQ_CODE & 0xff». -/
def ESCAPE_SEQ_ESC_SEQ : Nat := 0x33

/-- Size of the static frame buffer in serial_transport.c (the C expression
    uses FRAME_START_CODE, value 0x56, where FRAME_START_CODE_SIZE was
    apparently meant; the model keeps the source expression). -/
def serial_buffer_size : Nat :=
  FRAME_START_CODE + (1 + 1 + MDFU_MAX_COMMAND_DATA_LENGTH + 2) * 2 + 1

/-- calculate_frame_checksum accumulator loop: even-indexed bytes are added
    into the low byte, odd-indexed bytes shifted into the high byte, in a
    uint16 accumulator (mod 65536). -/
def frame_checksum_aux : List Nat → Nat → Nat → Nat
  | [], _index, checksum => checksum
  | b :: rest, index, checksum =>
    frame_checksum_aux rest (index + 1)
      ((checksum + (if index % 2 = 0 then b else b * 256)) % 65536)

/-- calculate_frame_checksum from serial_transport.c: the bitwise NOT (xor
    with 0xFFFF on a uint16) of the accumulated sum. -/
def calculate_frame_checksum (data : List Nat) : Nat :=
  frame_checksum_aux data 0 0 ^^^ 0xFFFF

/-- Modelled from the spec formula for the CRC: the 16-bit sum of the
    little-endian 16-bit words of the payload, zero-padded to even length
    (a trailing single byte contributes only a low byte). -/
def spec_word_sum : List Nat → Nat
  | [] => 0
  | [lo] => lo
  | lo :: hi :: rest => (lo + hi * 256) + spec_word_sum rest

/-- Modelled from the spec: bitwise NOT of the 16-bit little-endian word sum
    of the payload; 0xFFFF on empty input. -/
def spec_crc16 (s : List Nat) : Nat := (spec_word_sum s % 65536) ^^^ 0xFFFF

/-- encode_frame_payload: each reserved byte (START, END, ESC) is replaced by
    the escape code followed by its complement; other bytes pass through. -/
def encode_frame_payload : List Nat → List Nat
  | [] => []
  | code :: rest =>
    (if code = FRAME_START_CODE then [ESCAPE_SEQ_CODE, FRAME_START_ESC_SEQ]
     else if code = FRAME_END_CODE then [ESCAPE_SEQ_CODE, FRAME_END_ESC_SEQ]
     else if code = ESCAPE_SEQ_CODE then [ESCAPE_SEQ_CODE, ESCAPE_SEQ_ESC_SEQ]
     else [code]) ++ encode_frame_payload rest

/-- decode_frame_payload escape-state machine: after an escape code only the
    three complements are valid (anything else is the EINVAL error, none); a
    trailing escape code is silently dropped, as in the C loop. -/
def decode_frame_payload_aux : Bool → List Nat → Option (List Nat)
  | _, [] => some []
  | true, code :: rest =>
    if code = FRAME_START_ESC_SEQ then
      (decode_frame_payload_aux false rest).map (FRAME_START_CODE :: ·)
    else if code = FRAME_END_ESC_SEQ then
      (decode_frame_payload_aux false rest).map (FRAME_END_CODE :: ·)
    else if code = ESCAPE_SEQ_ESC_SEQ then
      (decode_frame_payload_aux false rest).map (ESCAPE_SEQ_CODE :: ·)
    else none
  | false, code :: rest =>
    if code = ESCAPE_SEQ_CODE then decode_frame_payload_aux true rest
    else (decode_frame_payload_aux false rest).map (code :: ·)

def decode_frame_payload (data : List Nat) : Option (List Nat) :=
  decode_frame_payload_aux false data

/-- discard_until from serial_transport.c on a byte stream: drop bytes until
    the code is found, returning the rest of the stream; none models the
    timeout when the stream runs out. -/
def discard_until (code : Nat) : List Nat → Option (List Nat)
  | [] => none
  | b :: rest => if b = code then some rest else discard_until code rest

/-- read_until from serial_transport.c: accumulate bytes until the code is
    seen; none models ENOBUFS (accumulated bytes reach max_size) or the
    timeout (stream exhausted). -/
def read_until_loop (code max_size : Nat) (acc : List Nat) :
    List Nat → Option (List Nat)
  | [] => none
  | b :: rest =>
    if acc.length = max_size then none
    else if b = code then some acc
    else read_until_loop code max_size (acc ++ [b]) rest

/-- The receive path of the serial transport read function up to and
    including decode_frame_payload: discard until the start code, accumulate
    the raw frame until the end code, decode the escapes.  The C code then
    immediately reads the two checksum bytes at decoded positions
    size - 2 and size - 1 with no validation of the decoded length. -/
def serial_read_decoded (stream : List Nat) : Option (List Nat) :=
  match discard_until FRAME_START_CODE stream with
  | none => none
  | some s1 =>
    match read_until_loop FRAME_END_CODE serial_buffer_size [] s1 with
    | none => none
    | some raw => decode_frame_payload raw

/-- The frame checksum fetch «*((uint16_t *)&data[*size - 2])» performed by
    the serial read function: defined only when the two checksum bytes lie
    inside the decoded data. -/
def frame_checksum_read (d : List Nat) : Option Nat :=
  if 2 ≤ d.length then
    some (le16 (d.getD (d.length - 2) 0) (d.getD (d.length - 1) 0))
  else none

/-! Concrete inputs used by the claims. -/

/-- Client-info payload of end-to-end scenario 3 of the spec:
    02 03 80 00 02 | 01 03 01 02 03 | 03 09 00 0a 00 03 0a 00 04 f4 01. -/
def scenario3_payload : List Nat :=
  [0x02, 0x03, 0x80, 0x00, 0x02,
   0x01, 0x03, 0x01, 0x02, 0x03,
   0x03, 0x09, 0x00, 0x0a, 0x00, 0x03, 0x0a, 0x00, 0x04, 0xf4, 0x01]

/-- The client_info_t that mdfu_decode_client_info produces for the
    scenario 3 payload: note the decoder stores the WRITE_CHUNK override at
    index 3 and the GET_IMAGE_STATE override at index 4 (index = command
    code), exactly as the unit test test_mdfu_client_info.c asserts. -/
def scenario3_client_info : client_info_t :=
  { version_major := 1, version_minor := 2, version_patch := 3,
    version_internal := 0, version_internal_present := false,
    buffer_count := 2, buffer_size := 128, default_timeout := 10,
    cmd_timeouts := [10, 10, 10, 10, 500, 10],
    inter_transaction_delay := 0 }

/-- A decoded client info whose buffer_size exceeds
    MDFU_MAX_COMMAND_DATA_LENGTH, with a protocol version the host accepts. -/
def client_info_oversize : client_info_t :=
  { version_major := 1, version_minor := 2, version_patch := 0,
    version_internal := 0, version_internal_present := false,
    buffer_count := 1, buffer_size := 2000, default_timeout := 10,
    cmd_timeouts := [10, 10, 10, 10, 10, 10],
    inter_transaction_delay := 0 }

/-- C1: the claim says a command c sent after GET_CLIENT_INFO uses the
    timeout the decoder recorded for c (override if present, else default),
    and that for the scenario 3 payload GET_IMAGE_STATE uses 500.  The
    decoder does record 500 for GET_IMAGE_STATE (at index 4, as the unit
    test asserts), but mdfu_send_cmd reads cmd_timeouts[command - 1], so
    GET_IMAGE_STATE is sent with timeout value 10, not 500. -/
theorem send_cmd_timeout_off_by_one :
    mdfu_decode_client_info scenario3_payload client_info_init =
      some scenario3_client_info ∧
    scenario3_client_info.cmd_timeouts.getD GET_IMAGE_STATE 0 = 500 ∧
    scenario3_client_info.cmd_timeouts.getD WRITE_CHUNK 0 = 10 ∧
    mdfu_send_cmd_timeout scenario3_client_info GET_IMAGE_STATE = 10 ∧
    mdfu_send_cmd_timeout scenario3_client_info WRITE_CHUNK = 10 := by
  decide

/-- C2: a decodable resend=0 SUCCESS response arriving on the final (here the
    only) attempt is reported as -EIO by mdfu_send_cmd, because the final
    «if(retries == 0)» check cannot tell exhaustion from a success on the
    last attempt; with one spare retry the same outcome is reported as
    success.  The sequence number is advanced in both cases. -/
theorem send_cmd_success_on_last_retry_returns_eio :
    (mdfu_send_cmd_model (fun _ => .response false SUCCESS) 1
      false WRITE_CHUNK [] 7).status = -eio_errno ∧
    (mdfu_send_cmd_model (fun _ => .response false SUCCESS) 2
      false WRITE_CHUNK [] 7).status = 0 ∧
    (mdfu_send_cmd_model (fun _ => .response false SUCCESS) 1
      false WRITE_CHUNK [] 7).seq = 8 := by
  decide

/-- C3: with a decoded buffer_size of 2000 > MDFU_MAX_COMMAND_DATA_LENGTH
    (1024) and an acceptable protocol version, mdfu_run_update still sends
    START_TRANSFER: the buffer-size rejection in src/src/mdfu/mdfu.c is
    placed after mdfu_start_transfer, so the claimed
    «no START_TRANSFER is written» is violated even though the run fails. -/
theorem run_update_starts_transfer_before_buffer_check :
    mdfu_run_update_cmds client_info_oversize false false [] VALID =
      ([GET_CLIENT_INFO, START_TRANSFER], false) ∧
    START_TRANSFER ∈ (mdfu_run_update_cmds client_info_oversize false false [] VALID).1 := by
  decide

/-- C5 counterexample: the claim says a status byte of 6 decodes
    successfully, but mdfu_decode_packet rejects any status with
    MAX_MDFU_STATUS (6) ≤ status, so status 6 fails. -/
theorem decode_status_six_rejected :
    (mdfu_decode_status_packet [0x00, 0x06] 2).1 ≠ 0 := by
  decide

/-- C5 amended: decoding a status packet succeeds exactly when the status
    byte lies in {1, 2, 3, 4, 5}, the status codes of the mdfu_status_t enum
    (SUCCESS = 1 through ABORT_FILE_TRANSFER = 5); 0 and every value from 6
    up fail. -/
theorem decode_status_success_iff :
    ∀ (packet : List Nat) (packet_size : Nat),
      (mdfu_decode_status_packet packet packet_size).1 = 0 ↔
        (1 ≤ packet.getD 1 0 ∧ packet.getD 1 0 < MAX_MDFU_STATUS) := by
  intro packet packet_size
  by_cases h : packet.getD 1 0 = 0 ∨ MAX_MDFU_STATUS ≤ packet.getD 1 0
  · simp only [mdfu_decode_status_packet, if_pos h]
    constructor
    · intro hc; exact absurd hc (by decide)
    · intro hc; omega
  · simp only [mdfu_decode_status_packet, if_neg h]
    constructor
    · intro _; omega
    · intro _; trivial

/-- C6: a client-info payload whose INTER_TRANSACTION_DELAY record carries
    length byte 5 instead of 4 decodes successfully (the delay is even
    stored from the first four value bytes): the C case logs the error but
    is missing the return, so no ClientInfoDecodeError is reported. -/
theorem itd_bad_length_decode_succeeds :
    mdfu_decode_client_info [4, 5, 17, 0, 0, 0, 0] client_info_init =
      some { client_info_init with inter_transaction_delay := 17 } := by
  decide

/-- C7: the byte stream 0x56 0x9E (a start code immediately followed by the
    end code) is accepted by the serial receive path with an empty decoded
    frame; the read function has no length-at-least-3 validation, and its
    fetch of the two checksum bytes at decoded positions size-2 and size-1
    is not backed by the decoded data. -/
theorem serial_read_accepts_empty_frame :
    serial_read_decoded [0x56, 0x9E] = some [] ∧
    frame_checksum_read [] = none := by
  constructor
  · decide
  · decide

/-- C10: a raw GET_IMAGE_STATE status response of exactly 2 bytes (header
    0x01, status SUCCESS) decodes with a NULL data pointer and length 0, and
    mdfu_send_cmd (here with retries 2) accepts the exchange as successful;
    the subsequent read of payload byte 0 in mdfu_get_image_state is not
    within the decoded payload. -/
theorem get_image_state_empty_payload_read_oob :
    (mdfu_decode_status_packet [0x01, 0x01] 2).1 = 0 ∧
    (mdfu_decode_status_packet [0x01, 0x01] 2).2.resend = false ∧
    (mdfu_decode_status_packet [0x01, 0x01] 2).2.status = SUCCESS ∧
    (mdfu_decode_status_packet [0x01, 0x01] 2).2.data = none ∧
    (mdfu_decode_status_packet [0x01, 0x01] 2).2.data_length = 0 ∧
    (mdfu_send_cmd_model (fun _ => .response false SUCCESS) 2
      false GET_IMAGE_STATE [] 0).status = 0 ∧
    mdfu_get_image_state_read (mdfu_decode_status_packet [0x01, 0x01] 2).2 = none := by
  decide

/-- Decoding inverts encoding byte by byte. -/
theorem decode_encode_aux (b : List Nat) :
    decode_frame_payload_aux false (encode_frame_payload b) = some b := by
  induction b with
  | nil => rfl
  | cons c rest ih =>
    by_cases h1 : c = FRAME_START_CODE
    · subst h1
      simp [encode_frame_payload, decode_frame_payload_aux, ih,
        FRAME_START_CODE, FRAME_END_CODE, ESCAPE_SEQ_CODE,
        FRAME_START_ESC_SEQ, FRAME_END_ESC_SEQ, ESCAPE_SEQ_ESC_SEQ]
    · by_cases h2 : c = FRAME_END_CODE
      · subst h2
        simp [encode_frame_payload, decode_frame_payload_aux, ih,
          FRAME_START_CODE, FRAME_END_CODE, ESCAPE_SEQ_CODE,
          FRAME_START_ESC_SEQ, FRAME_END_ESC_SEQ, ESCAPE_SEQ_ESC_SEQ]
      · by_cases h3 : c = ESCAPE_SEQ_CODE
        · subst h3
          simp [encode_frame_payload, decode_frame_payload_aux, ih,
            FRAME_START_CODE, FRAME_END_CODE, ESCAPE_SEQ_CODE,
            FRAME_START_ESC_SEQ, FRAME_END_ESC_SEQ, ESCAPE_SEQ_ESC_SEQ]
        · simp [encode_frame_payload, decode_frame_payload_aux, ih, h1, h2, h3]

/-- C9: the serial escape codec round-trips every byte sequence, and the
    encoded output never contains the reserved START (0x56) or END (0x9E)
    bytes (the escape code 0xCC and the three complements 0xA9, 0x61, 0x33
    are all distinct from them, and unreserved bytes pass through). -/
theorem escape_codec_roundtrip :
    ∀ b : List Nat,
      decode_frame_payload (encode_frame_payload b) = some b ∧
      ∀ x ∈ encode_frame_payload b, x ≠ FRAME_START_CODE ∧ x ≠ FRAME_END_CODE := by
  intro b
  refine ⟨decode_encode_aux b, ?_⟩
  induction b with
  | nil => intro x hx; simp [encode_frame_payload] at hx
  | cons c rest ih =>
    intro x hx
    simp only [encode_frame_payload, List.mem_append] at hx
    rcases hx with hx | hx
    · by_cases h1 : c = FRAME_START_CODE
      · simp [h1, FRAME_START_CODE, FRAME_END_CODE, ESCAPE_SEQ_CODE,
          FRAME_START_ESC_SEQ] at hx
        rcases hx with rfl | rfl <;> decide
      · by_cases h2 : c = FRAME_END_CODE
        · simp [h1, h2, FRAME_START_CODE, FRAME_END_CODE, ESCAPE_SEQ_CODE,
            FRAME_END_ESC_SEQ] at hx
          rcases hx with rfl | rfl <;> decide
        · by_cases h3 : c = ESCAPE_SEQ_CODE
          · simp [h1, h2, h3, FRAME_START_CODE, FRAME_END_CODE,
              ESCAPE_SEQ_CODE, ESCAPE_SEQ_ESC_SEQ] at hx
            rcases hx with rfl | rfl <;> decide
          · simp [h1, h2, h3] at hx
            subst hx
            exact ⟨h1, h2⟩
    · exact ih x hx

/-- The checksum accumulator, started at an even index with an in-range
    accumulator, computes the word sum modulo 65536: strong induction on a
    bound for the list length, consuming two bytes at a time. -/
theorem frame_checksum_aux_spec :
    ∀ (n : Nat) (s : List Nat), s.length ≤ n → ∀ (i c : Nat),
      i % 2 = 0 → c < 65536 →
      frame_checksum_aux s i c = (c + spec_word_sum s) % 65536 := by
  intro n
  induction n with
  | zero =>
    intro s hs i c _ hc
    have hnil : s = [] := List.eq_nil_of_length_eq_zero (Nat.le_zero.mp hs)
    subst hnil
    simp [frame_checksum_aux, spec_word_sum, Nat.mod_eq_of_lt hc]
  | succ n ih =>
    intro s hs i c hieven hc
    match s with
    | [] =>
      simp [frame_checksum_aux, spec_word_sum, Nat.mod_eq_of_lt hc]
    | [lo] =>
      simp only [frame_checksum_aux, spec_word_sum, if_pos hieven]
    | lo :: hi :: rest =>
      have hodd : ¬ (i + 1) % 2 = 0 := by omega
      simp only [frame_checksum_aux, spec_word_sum, if_pos hieven, if_neg hodd]
      have hlen : rest.length ≤ n := by
        simp only [List.length_cons] at hs
        omega
      rw [ih rest hlen (i + 2) _ (by omega) (Nat.mod_lt _ (by decide))]
      omega

/-- C8: calculate_frame_checksum computes exactly the spec formula — the
    bitwise NOT (xor with 0xFFFF) of the 16-bit sum of the little-endian
    16-bit words of the byte sequence, with implicit zero-padding to even
    length — and yields 0xFFFF on the empty sequence. -/
theorem crc16_matches_spec_formula :
    (∀ s : List Nat, calculate_frame_checksum s = spec_crc16 s) ∧
    calculate_frame_checksum [] = 0xFFFF := by
  constructor
  · intro s
    unfold calculate_frame_checksum spec_crc16
    rw [frame_checksum_aux_spec s.length s (Nat.le_refl _) 0 0 (by decide) (by decide)]
    simp
  · decide

/-- Every frame the send loop hands to transport.write is the one encoded
    before the loop, and the sequence number returned by the loop is the
    entry value advanced once modulo 32 exactly when some attempt obtained a
    resend=0 response (resend responses and failed attempts leave it
    untouched). -/
theorem mdfu_send_cmd_loop_writes_seq
    (outs : Nat → attempt_result_t) (frame : List Nat) :
    ∀ (retries i seq : Nat) (status : Int),
      (mdfu_send_cmd_loop outs frame i retries seq status).writes =
        List.replicate
          (mdfu_send_cmd_loop outs frame i retries seq status).writes.length
          frame ∧
      (mdfu_send_cmd_loop outs frame i retries seq status).seq =
        (if terminal_reached outs i retries then (seq + 1) % 32 else seq) := by
  intro retries
  induction retries with
  | zero =>
    intro i seq status
    simp [mdfu_send_cmd_loop, terminal_reached]
  | succ r ih =>
    intro i seq status
    cases houts : outs i with
    | write_fail =>
      have h := ih (i + 1) seq (-1)
      simp only [mdfu_send_cmd_loop, terminal_reached, houts]
      simpa [List.replicate_succ] using h
    | read_fail =>
      have h := ih (i + 1) seq (-1)
      simp only [mdfu_send_cmd_loop, terminal_reached, houts]
      simpa [List.replicate_succ] using h
    | response resend st =>
      by_cases hr : resend
      · have h := ih (i + 1) seq 0
        simp only [mdfu_send_cmd_loop, terminal_reached, houts, if_pos hr]
        simpa [List.replicate_succ] using h
      · by_cases hst : st = SUCCESS <;>
          simp [mdfu_send_cmd_loop, terminal_reached, houts, hr, hst]

/-- C4: within one mdfu_send_cmd exchange, every command frame written to
    the transport is byte-for-byte the packet encoded before the retry loop
    (same sequence number, same payload), so after a resend=1 response the
    next write repeats the previous one exactly and the session sequence
    counter is unchanged; the counter advances by 1 modulo 32 exactly when
    an attempt obtains a resend=0 response, whether SUCCESS or a terminal
    non-SUCCESS status. -/
theorem send_cmd_resend_discipline
    (outs : Nat → attempt_result_t) (retries : Nat) (sync : Bool)
    (cmd : Nat) (data : List Nat) (seq0 : Nat) :
    (mdfu_send_cmd_model outs retries sync cmd data seq0).writes =
      List.replicate
        (mdfu_send_cmd_model outs retries sync cmd data seq0).writes.length
        (mdfu_encode_cmd_packet sync (if sync then 0 else seq0) cmd data) ∧
    (mdfu_send_cmd_model outs retries sync cmd data seq0).seq =
      (if terminal_reached outs 0 retries
       then ((if sync then 0 else seq0) + 1) % 32
       else (if sync then 0 else seq0)) := by
  have h := mdfu_send_cmd_loop_writes_seq outs
    (mdfu_encode_cmd_packet sync (if sync then 0 else seq0) cmd data)
    retries 0 (if sync then 0 else seq0) 0
  have hf : ∀ s : send_cmd_state,
      (if s.retries = 0 then { s with status := -eio_errno } else s).writes
        = s.writes ∧
      (if s.retries = 0 then { s with status := -eio_errno } else s).seq
        = s.seq := by
    intro s
    split <;> exact ⟨rfl, rfl⟩
  simp only [mdfu_send_cmd_model]
  rw [(hf _).1, (hf _).2]
  exact h

end Cmdfu
